import Mathlib

/-!
Verification of the StockFlow inventory-management backend.

The development shallowly embeds the two code paths the claims are about:

* the `POST /api/products` handler (product provisioning inside one
  transaction), from `routes/products.js`;
* the low-stock alert queries and handlers (`GET
  /api/companies/:company_id/alerts/low-stock` and its `/summary` sibling),
  from `routes/alerts.js`.

Database tables become lists of records, the SQL queries become list
filters/maps, the Sequelize transaction becomes explicit state passing where
every error path returns the original state (rollback), and a storage-level
constraint violation thrown at write time is modelled by an explicit
`Option StorageErr` parameter that the catch-block classifies exactly as the
source does.  JS numbers are modelled exactly: integers as `Int`/`Nat`
(prices as integer cents), `AVG`/division results as exact rationals in
theorem statements, with the executable definitions using equivalent integer
arithmetic (`Int.fdiv`), proved equal to the rational forms.
-/

namespace StockFlow

/-! ## Data model (tables from `models/index.js` / `database/schema.sql`) -/

structure Warehouse where
  id : Nat
  companyId : Nat
  name : String
  isActive : Bool
deriving DecidableEq

structure Supplier where
  id : Nat
  name : String
  contactEmail : Option String
  leadTimeDays : Int
  isActive : Bool
deriving DecidableEq

structure ProductCategory where
  id : Nat
  name : String
  lowStockThreshold : Option Int
deriving DecidableEq

structure Product where
  id : Nat
  companyId : Nat
  categoryId : Option Nat
  supplierId : Option Nat
  name : String
  sku : String
  description : Option String
  price : Int
  cost : Option Int
  weight : Option Int
  dimensions : Option String
  lowStockThreshold : Option Int
  isActive : Bool
deriving DecidableEq

structure Inventory where
  id : Nat
  productId : Nat
  warehouseId : Nat
  quantity : Int
  reservedQuantity : Int
deriving DecidableEq

structure InventoryMovement where
  id : Nat
  inventoryId : Nat
  movementType : String
  quantity : Int
  previousQuantity : Int
  newQuantity : Int
  referenceId : Option String
  referenceType : Option String
  notes : Option String
  userId : Option Nat
deriving DecidableEq

structure SalesData where
  id : Nat
  productId : Nat
  warehouseId : Nat
  quantitySold : Nat
  saleDate : Nat
deriving DecidableEq

structure DB where
  warehouses : List Warehouse
  suppliers : List Supplier
  categories : List ProductCategory
  products : List Product
  inventories : List Inventory
  movements : List InventoryMovement
  sales : List SalesData
deriving DecidableEq

/-- The caller identity produced by the auth middleware (`req.user`). -/
structure AuthUser where
  id : Nat
  companyId : Nat
deriving DecidableEq

/-! ## Input validation (`createProductSchema`, Joi)

Joi's `validate` is called with default options, and Joi defaults
`abortEarly` to `true`: validation stops at the first failing field and
`error.details` holds that single failure.  The embedding checks the fields
in schema order and returns a singleton error list, as the source does.
Message texts are abbreviated but one-per-check as in Joi.
Optional positive/min checks are phrased with `getD` pulling a passing
default, which is equivalent to "check only when present".  `price`, `cost`
and `weight` are integer cents (Joi `precision(2)` values scaled by 100). -/

structure RawInput where
  name : Option String
  sku : Option String
  description : Option String
  price : Option Int
  cost : Option Int
  weight : Option Int
  dimensions : Option String
  categoryId : Option Int
  supplierId : Option Int
  lowStockThreshold : Option Int
  warehouseId : Option Int
  initialQuantity : Option Int
deriving DecidableEq

structure CreateInput where
  name : String
  sku : String
  description : Option String
  price : Int
  cost : Option Int
  weight : Option Int
  dimensions : Option String
  categoryId : Option Nat
  supplierId : Option Nat
  lowStockThreshold : Int
  warehouseId : Nat
  initialQuantity : Nat
deriving DecidableEq

def nameError (r : RawInput) : Option String :=
  match r.name with
  | none => some "name is required"
  | some s =>
    if s.length = 0 then some "name is not allowed to be empty"
    else if 255 < s.length then some "name length must be at most 255"
    else none

def skuError (r : RawInput) : Option String :=
  match r.sku with
  | none => some "sku is required"
  | some s =>
    if s.length = 0 then some "sku is not allowed to be empty"
    else if 100 < s.length then some "sku length must be at most 100"
    else none

def priceError (r : RawInput) : Option String :=
  match r.price with
  | none => some "price is required"
  | some p => if p ≤ 0 then some "price must be a positive number" else none

def costError (r : RawInput) : Option String :=
  if r.cost.getD 1 ≤ 0 then some "cost must be a positive number" else none

def weightError (r : RawInput) : Option String :=
  if r.weight.getD 1 ≤ 0 then some "weight must be a positive number" else none

def dimensionsError (r : RawInput) : Option String :=
  if 100 < (r.dimensions.getD "").length then
    some "dimensions length must be at most 100"
  else none

def categoryIdError (r : RawInput) : Option String :=
  if r.categoryId.getD 1 ≤ 0 then some "categoryId must be a positive number" else none

def supplierIdError (r : RawInput) : Option String :=
  if r.supplierId.getD 1 ≤ 0 then some "supplierId must be a positive number" else none

def thresholdError (r : RawInput) : Option String :=
  if r.lowStockThreshold.getD 10 < 0 then
    some "lowStockThreshold must be at least 0"
  else none

def warehouseIdError (r : RawInput) : Option String :=
  match r.warehouseId with
  | none => some "warehouseId is required"
  | some w => if w ≤ 0 then some "warehouseId must be a positive number" else none

def initialQuantityError (r : RawInput) : Option String :=
  match r.initialQuantity with
  | none => some "initialQuantity is required"
  | some q => if q < 0 then some "initialQuantity must be at least 0" else none

/-- The first failing field check in schema key order, i.e. the single entry
of `error.details` under Joi's default `abortEarly: true`. -/
def firstValidationError (r : RawInput) : Option String :=
  nameError r <|> skuError r <|> priceError r <|> costError r <|> weightError r
    <|> dimensionsError r <|> categoryIdError r <|> supplierIdError r
    <|> thresholdError r <|> warehouseIdError r <|> initialQuantityError r

/-- Joi's returned `value`: the input with schema defaults applied
(`lowStockThreshold` defaults to 10).  The `getD` fallbacks of the required
fields are unreachable when validation succeeded. -/
def buildCreateInput (r : RawInput) : CreateInput :=
  { name := r.name.getD ""
    sku := r.sku.getD ""
    description := r.description
    price := r.price.getD 0
    cost := r.cost
    weight := r.weight
    dimensions := r.dimensions
    categoryId := r.categoryId.map Int.toNat
    supplierId := r.supplierId.map Int.toNat
    lowStockThreshold := r.lowStockThreshold.getD 10
    warehouseId := (r.warehouseId.getD 0).toNat
    initialQuantity := (r.initialQuantity.getD 0).toNat }

/-- `createProductSchema.validate(req.body)`: either the single-element
`details` list of the first violation, or the validated value. -/
def validateCreateProduct (r : RawInput) : Except (List String) CreateInput :=
  match firstValidationError r with
  | some m => .error [m]
  | none => .ok (buildCreateInput r)

/-! ## The `POST /api/products` handler -/

/-- Outcomes of the handler's error responses.  `validationFailed` is the 400
with per-field details, `invalidWarehouse` the 400 warehouse check,
`skuExists`/`inventoryExists` the two explicit 409s, and the last three are
the catch-block classifications of a thrown storage error
(`SequelizeUniqueConstraintError` → 409 duplicate entry,
`SequelizeForeignKeyConstraintError` → 400 invalid reference,
anything else → 500 internal server error). -/
inductive ApiError where
  | validationFailed (details : List String)
  | invalidWarehouse
  | skuExists
  | inventoryExists
  | duplicateEntry
  | invalidReference
  | internalError
deriving DecidableEq

def statusOf : ApiError → Nat
  | .validationFailed _ => 400
  | .invalidWarehouse => 400
  | .skuExists => 409
  | .inventoryExists => 409
  | .duplicateEntry => 409
  | .invalidReference => 400
  | .internalError => 500

/-- A storage-layer error thrown during the write section of the
transaction, as seen by the handler's catch block. -/
inductive StorageErr where
  | uniqueConstraint
  | foreignKeyConstraint
  | other
deriving DecidableEq

def classifyStorageErr : StorageErr → ApiError
  | .uniqueConstraint => .duplicateEntry
  | .foreignKeyConstraint => .invalidReference
  | .other => .internalError

/-- The 201 response body (`data.product`). -/
structure CreatedData where
  productId : Nat
  name : String
  sku : String
  price : Int
  warehouseId : Nat
  initialQuantity : Nat
deriving DecidableEq

/-- AUTO_INCREMENT id generation: one more than the largest id in use. -/
def nextId (ids : List Nat) : Nat := ids.foldr (fun i m => max i m) 0 + 1

def freshProductId (db : DB) : Nat := nextId (db.products.map Product.id)

def freshInventoryId (db : DB) : Nat := nextId (db.inventories.map Inventory.id)

def freshMovementId (db : DB) : Nat := nextId (db.movements.map InventoryMovement.id)

/-- The Product row inserted by `Product.create` in the handler. -/
def createdProduct (db : DB) (user : AuthUser) (v : CreateInput) : Product :=
  { id := freshProductId db
    companyId := user.companyId
    categoryId := v.categoryId
    supplierId := v.supplierId
    name := v.name
    sku := v.sku
    description := v.description
    price := v.price
    cost := v.cost
    weight := v.weight
    dimensions := v.dimensions
    lowStockThreshold := some v.lowStockThreshold
    isActive := true }

/-- The Inventory row inserted by `Inventory.create` in the handler. -/
def createdInventory (db : DB) (v : CreateInput) : Inventory :=
  { id := freshInventoryId db
    productId := freshProductId db
    warehouseId := v.warehouseId
    quantity := (v.initialQuantity : Int)
    reservedQuantity := 0 }

/-- The audit row inserted by `InventoryMovement.create` in the handler. -/
def createdMovement (db : DB) (user : AuthUser) (v : CreateInput) : InventoryMovement :=
  { id := freshMovementId db
    inventoryId := freshInventoryId db
    movementType := "in"
    quantity := (v.initialQuantity : Int)
    previousQuantity := 0
    newQuantity := (v.initialQuantity : Int)
    referenceId := some (toString (freshProductId db))
    referenceType := some "initial_stock"
    notes := some "Initial stock entry for new product"
    userId := some user.id }

/-- The `POST /api/products` handler.  Every step runs inside one Sequelize
transaction; every error path calls `transaction.rollback()` and therefore
returns the unchanged store, and only the final `transaction.commit()`
publishes the three inserted rows.  `storageFailure` injects a storage-layer
error thrown by a write after all explicit checks pass (e.g. the unique-SKU
index tripping for a race loser); the catch block classifies it as in the
source. -/
def createProduct (db : DB) (user : AuthUser) (body : RawInput)
    (storageFailure : Option StorageErr) : Except ApiError CreatedData × DB :=
  match validateCreateProduct body with
  | .error msgs => (.error (.validationFailed msgs), db)
  | .ok v =>
    match db.warehouses.find? (fun w =>
        w.id == v.warehouseId && w.companyId == user.companyId && w.isActive) with
    | none => (.error .invalidWarehouse, db)
    | some _ =>
      match db.products.find? (fun p => p.sku == v.sku) with
      | some _ => (.error .skuExists, db)
      | none =>
        match storageFailure with
        | some e => (.error (classifyStorageErr e), db)
        | none =>
          match db.inventories.find? (fun i =>
              i.productId == freshProductId db && i.warehouseId == v.warehouseId) with
          | some _ => (.error .inventoryExists, db)
          | none =>
            (.ok
              { productId := freshProductId db
                name := v.name
                sku := v.sku
                price := v.price
                warehouseId := v.warehouseId
                initialQuantity := v.initialQuantity },
             { db with
                products := db.products ++ [createdProduct db user v]
                inventories := db.inventories ++ [createdInventory db v]
                movements := db.movements ++ [createdMovement db user v] })

/-! ## The Stock Alert Engine (`routes/alerts.js`)

`cid` is the company id in the request path (already checked against
`req.user.companyId` by the authorization guard), and `cutoff` the date
`thirtyDaysAgo`, with dates modelled as day numbers. -/

/-- One row of the `FROM products INNER JOIN inventory INNER JOIN
warehouses` join in `lowStockQuery`. -/
structure Candidate where
  p : Product
  w : Warehouse
  i : Inventory
deriving DecidableEq

def joinRows (db : DB) : List Candidate :=
  db.products.flatMap fun p =>
    (db.inventories.filter (fun i => i.productId == p.id)).flatMap fun i =>
      (db.warehouses.filter (fun w => w.id == i.warehouseId)).map fun w =>
        { p := p, w := w, i := i }

/-- The `LEFT JOIN product_categories pc ON p.category_id = pc.id` row. -/
def categoryOf (db : DB) (p : Product) : Option ProductCategory :=
  p.categoryId.bind fun cid => db.categories.find? (fun c => c.id == cid)

/-- `pc.low_stock_threshold` of the joined category row (NULL when the
product has no category, the category row is absent, or its threshold is
NULL). -/
def categoryThreshold (db : DB) (p : Product) : Option Int :=
  (categoryOf db p).bind ProductCategory.lowStockThreshold

/-- `COALESCE(p.low_stock_threshold, pc.low_stock_threshold, 10)`. -/
def effectiveThreshold (db : DB) (p : Product) : Int :=
  match p.lowStockThreshold with
  | some t => t
  | none =>
    match categoryThreshold db p with
    | some t => t
    | none => 10

/-- `i.quantity - i.reserved_quantity`. -/
def availableStock (i : Inventory) : Int := i.quantity - i.reservedQuantity

/-- The `EXISTS(SELECT 1 FROM sales_data sd WHERE ... sd.sale_date >=
:thirtyDaysAgo)` recency test. -/
def hasRecentSales (db : DB) (cutoff pid wid : Nat) : Bool :=
  db.sales.any fun sd =>
    sd.productId == pid && sd.warehouseId == wid && decide (cutoff ≤ sd.saleDate)

/-- The WHERE clause of `lowStockQuery` (and of `countQuery` and
`summaryQuery`, which repeat it verbatim). -/
def qualifies (db : DB) (cid cutoff : Nat) (c : Candidate) : Bool :=
  c.p.companyId == cid && c.p.isActive && c.w.isActive && c.w.companyId == cid
    && decide (availableStock c.i ≤ effectiveThreshold db c.p)
    && hasRecentSales db cutoff c.p.id c.w.id

def qualifyingCandidates (db : DB) (cid cutoff : Nat) : List Candidate :=
  (joinRows db).filter (qualifies db cid cutoff)

/-- The `sales_data` rows of the correlated subquery for one
(product, warehouse) pair. -/
def salesInWindow (db : DB) (cutoff pid wid : Nat) : List SalesData :=
  db.sales.filter fun sd =>
    sd.productId == pid && sd.warehouseId == wid && decide (cutoff ≤ sd.saleDate)

/-- The distinct `sale_date`s of the window, i.e. the groups of the
`GROUP BY sd.sale_date` subquery. -/
def saleDatesInWindow (db : DB) (cutoff pid wid : Nat) : List Nat :=
  ((salesInWindow db cutoff pid wid).map SalesData.saleDate).dedup

/-- The per-group `SUM(sd.quantity_sold)` column of the
`GROUP BY sd.sale_date` subquery, one entry per distinct sale date. -/
def perDateSums (db : DB) (cutoff pid wid : Nat) : List Nat :=
  (saleDatesInWindow db cutoff pid wid).map fun d =>
    (((salesInWindow db cutoff pid wid).filter (fun sd => sd.saleDate == d)).map
      SalesData.quantitySold).sum

/-- The stockout mapping of the alerts handler.  The source computes
`avg_daily_sales = COALESCE(AVG(daily_sales.total_sold), 0)` — i.e. the
rational `sumSold / nDays` (with the NULL average over zero groups coalesced
to `0`) — and then
`Math.max(0, avgDailySales > 0 ? Math.floor(current_stock / avgDailySales)
: (current_stock > 0 ? 90 : 0))`.
Over exact arithmetic `avgDailySales > 0` holds iff `0 < sumSold ∧ 0 < nDays`,
and `Math.floor(stock / (sumSold/nDays)) = Int.fdiv (stock * nDays) sumSold`;
the theorem `stockout_projection_formula` proves this equal to the rational
form. -/
def daysUntilStockoutOf (stock : Int) (sumSold nDays : Nat) : Int :=
  max 0
    (if 0 < sumSold ∧ 0 < nDays then Int.fdiv (stock * (nDays : Int)) (sumSold : Int)
     else if 0 < stock then 90 else 0)

/-- The `supplier` object of the JSON response. -/
structure SupplierInfo where
  id : Nat
  name : String
  contactEmail : Option String
  leadTimeDays : Int
deriving DecidableEq

/-- `LEFT JOIN suppliers s ON p.supplier_id = s.id` — note: the join is on
the id only, with no `is_active` condition anywhere in the query. -/
def joinedSupplier (db : DB) (p : Product) : Option Supplier :=
  p.supplierId.bind fun sid => db.suppliers.find? (fun s => s.id == sid)

/-- `row.supplier_id ? {...} : null`: populated when the joined supplier id
is non-NULL and truthy (a JS id of 0 would be falsy, hence the id check). -/
def supplierField (db : DB) (p : Product) : Option SupplierInfo :=
  match joinedSupplier db p with
  | some s =>
    if s.id = 0 then none
    else some
      { id := s.id
        name := s.name
        contactEmail := s.contactEmail
        leadTimeDays := s.leadTimeDays }
  | none => none

/-- One element of the handler's `alerts` array. -/
structure Alert where
  productId : Nat
  productName : String
  sku : String
  warehouseId : Nat
  warehouseName : String
  currentStock : Int
  threshold : Int
  daysUntilStockout : Int
  supplier : Option SupplierInfo
deriving DecidableEq

def mkAlert (db : DB) (cutoff : Nat) (c : Candidate) : Alert :=
  { productId := c.p.id
    productName := c.p.name
    sku := c.p.sku
    warehouseId := c.w.id
    warehouseName := c.w.name
    currentStock := availableStock c.i
    threshold := effectiveThreshold db c.p
    daysUntilStockout :=
      daysUntilStockoutOf (availableStock c.i)
        (perDateSums db cutoff c.p.id c.w.id).sum
        (perDateSums db cutoff c.p.id c.w.id).length
    supplier := supplierField db c.p }

/-- `ORDER BY (i.quantity - i.reserved_quantity) ASC` as a sort relation. -/
def availLe (a b : Candidate) : Prop := availableStock a.i ≤ availableStock b.i

instance : DecidableRel availLe := fun _ _ => Int.decLe _ _

/-- The ordered candidate rows of `lowStockQuery` before `LIMIT`/`OFFSET`:
the `SELECT DISTINCT` row set (`dedup`) ordered by available stock. -/
def sortedQualifying (db : DB) (cid cutoff : Nat) : List Candidate :=
  List.insertionSort availLe (qualifyingCandidates db cid cutoff).dedup

/-- The handler's `alerts` array: `LIMIT :limit OFFSET :offset` with
`offset = (page - 1) * limit` (defaults `page = 1`, `limit = 100`), then the
row-to-alert mapping. -/
def lowStockAlerts (db : DB) (cid cutoff page size : Nat) : List Alert :=
  (((sortedQualifying db cid cutoff).drop ((page - 1) * size)).take size).map
    (mkAlert db cutoff)

/-- `countQuery`: `COUNT(DISTINCT CONCAT(p.id, '-', w.id))` over the same
joins and WHERE clause.  The CONCAT of two decimal ids around `-` is in
bijection with the id pair, so the count is modelled as the number of
distinct `(p.id, w.id)` pairs. -/
def totalAlertCount (db : DB) (cid cutoff : Nat) : Nat :=
  (((qualifyingCandidates db cid cutoff).map (fun c => (c.p.id, c.w.id))).dedup).length

/-- `Math.ceil(totalAlerts / limit)` of the pagination metadata. -/
def totalPagesOf (total size : Nat) : Nat := (total + size - 1) / size

/-! ## The category summary (`GET .../alerts/low-stock/summary`) -/

/-- The `GROUP BY pc.name` key: the joined category's name, NULL when the
product has no category row. -/
def categoryKey (db : DB) (c : Candidate) : Option String :=
  (categoryOf db c.p).map ProductCategory.name

/-- `parseFloat(row.avg_stock_level).toFixed(2)` as an integer count of
hundredths: round `sum/len * 100` to the nearest integer, ties toward the
larger value (the ECMAScript `toFixed` rule), i.e.
`⌊(sum/len) * 100 + 1/2⌋ = Int.fdiv (200*sum + len) (2*len)`; the rational
form is proved equal in `toFixedHundredths_eq_floor`. -/
def toFixedHundredths (sum : Int) (len : Nat) : Int :=
  Int.fdiv (200 * sum + (len : Int)) (2 * (len : Int))

/-- One row of the summary response. -/
structure SummaryRow where
  categoryName : String
  alertCount : Nat
  outOfStockCount : Nat
  criticalCount : Nat
  avgStockHundredths : Int
deriving DecidableEq

/-- The aggregates `summaryQuery` computes for the group of one
`pc.name` key: `COUNT(*)`, the two `SUM(CASE WHEN ...)` counters and
`AVG(i.quantity - i.reserved_quantity)` (rounded by `toFixed(2)` in the
response mapping), with `COALESCE(pc.name, 'Uncategorized')` as the label. -/
def summaryGroup (db : DB) (cid cutoff : Nat) (k : Option String) : SummaryRow :=
  { categoryName := k.getD "Uncategorized"
    alertCount :=
      ((qualifyingCandidates db cid cutoff).filter
        (fun c => categoryKey db c == k)).length
    outOfStockCount :=
      (((qualifyingCandidates db cid cutoff).filter
        (fun c => categoryKey db c == k)).filter
          (fun c => availableStock c.i == 0)).length
    criticalCount :=
      (((qualifyingCandidates db cid cutoff).filter
        (fun c => categoryKey db c == k)).filter
          (fun c => decide (availableStock c.i ≤ 5))).length
    avgStockHundredths :=
      toFixedHundredths
        (((qualifyingCandidates db cid cutoff).filter
          (fun c => categoryKey db c == k)).map (fun c => availableStock c.i)).sum
        ((qualifyingCandidates db cid cutoff).filter
          (fun c => categoryKey db c == k)).length }

/-- `ORDER BY alert_count DESC` as a sort relation. -/
def countGe (a b : SummaryRow) : Prop := b.alertCount ≤ a.alertCount

instance : DecidableRel countGe := fun _ _ => Nat.decLe _ _

/-- The summary endpoint's `summary` array: one row per distinct
`pc.name` group, ordered by alert count descending. -/
def lowStockSummary (db : DB) (cid cutoff : Nat) : List SummaryRow :=
  List.insertionSort countGe
    ((((qualifyingCandidates db cid cutoff).map (categoryKey db)).dedup).map
      (summaryGroup db cid cutoff))

/-! ## Helper lemmas -/

theorem le_foldr_max (ids : List Nat) (i : Nat) (h : i ∈ ids) :
    i ≤ ids.foldr (fun a m => max a m) 0 := by
  induction ids with
  | nil => cases h
  | cons a t ih =>
    rcases List.mem_cons.mp h with rfl | h'
    · exact le_max_left _ _
    · exact le_trans (ih h') (le_max_right _ _)

theorem mem_lt_nextId (ids : List Nat) (i : Nat) (h : i ∈ ids) : i < nextId ids :=
  Nat.lt_succ_of_le (le_foldr_max ids i h)

/-- When every inventory row references an existing product (the foreign-key
invariant of the store), no inventory row can reference the fresh
auto-increment product id, so the duplicate-inventory lookup finds
nothing. -/
theorem inventory_fresh_none (db : DB) (v : CreateInput)
    (hfk : ∀ i ∈ db.inventories, ∃ p ∈ db.products, i.productId = p.id) :
    db.inventories.find? (fun i =>
      i.productId == freshProductId db && i.warehouseId == v.warehouseId) = none := by
  rw [List.find?_eq_none]
  intro i hi
  obtain ⟨p, hp, hip⟩ := hfk i hi
  have hlt : p.id < freshProductId db :=
    mem_lt_nextId _ _ (List.mem_map_of_mem Product.id hp)
  simp only [Bool.and_eq_true, beq_iff_eq]
  rintro ⟨h1, -⟩
  omega

theorem warehouse_found_isSome (db : DB) (user : AuthUser) (v : CreateInput)
    (hwh : ∃ w ∈ db.warehouses,
      w.id = v.warehouseId ∧ w.companyId = user.companyId ∧ w.isActive = true) :
    (db.warehouses.find? (fun w =>
      w.id == v.warehouseId && w.companyId == user.companyId && w.isActive)).isSome := by
  rw [List.find?_isSome]
  obtain ⟨w, hw, h1, h2, h3⟩ := hwh
  exact ⟨w, hw, by simp [h1, h2, h3]⟩

theorem sku_fresh_none (db : DB) (v : CreateInput)
    (hsku : ∀ p ∈ db.products, p.sku ≠ v.sku) :
    db.products.find? (fun p => p.sku == v.sku) = none := by
  rw [List.find?_eq_none]
  intro p hp
  simp [hsku p hp]

/-- Reduction of the handler on the all-checks-pass, no-storage-failure
path. -/
theorem createProduct_success_eq (db : DB) (user : AuthUser) (body : RawInput)
    (v : CreateInput)
    (hval : validateCreateProduct body = .ok v)
    (hw : (db.warehouses.find? (fun w =>
      w.id == v.warehouseId && w.companyId == user.companyId && w.isActive)).isSome)
    (hsku : db.products.find? (fun p => p.sku == v.sku) = none)
    (hinv : db.inventories.find? (fun i =>
      i.productId == freshProductId db && i.warehouseId == v.warehouseId) = none) :
    createProduct db user body none =
      (.ok
        { productId := freshProductId db
          name := v.name
          sku := v.sku
          price := v.price
          warehouseId := v.warehouseId
          initialQuantity := v.initialQuantity },
       { db with
          products := db.products ++ [createdProduct db user v]
          inventories := db.inventories ++ [createdInventory db v]
          movements := db.movements ++ [createdMovement db user v] }) := by
  obtain ⟨w0, hw0⟩ := Option.isSome_iff_exists.mp hw
  simp [createProduct, hval, hw0, hsku, hinv]

/-- Reduction of the handler when all explicit checks pass but a write
throws a storage error: the catch block classifies it and rolls back. -/
theorem createProduct_storageFailure_eq (db : DB) (user : AuthUser) (body : RawInput)
    (v : CreateInput) (e : StorageErr)
    (hval : validateCreateProduct body = .ok v)
    (hw : (db.warehouses.find? (fun w =>
      w.id == v.warehouseId && w.companyId == user.companyId && w.isActive)).isSome)
    (hsku : db.products.find? (fun p => p.sku == v.sku) = none) :
    createProduct db user body (some e) = (.error (classifyStorageErr e), db) := by
  obtain ⟨w0, hw0⟩ := Option.isSome_iff_exists.mp hw
  simp [createProduct, hval, hw0, hsku]

/-- A successful validation returns exactly the value with defaults
applied. -/
theorem validateCreateProduct_ok_inv (r : RawInput) (v : CreateInput)
    (h : validateCreateProduct r = .ok v) : v = buildCreateInput r := by
  unfold validateCreateProduct at h
  split at h
  · exact Except.noConfusion h
  · injection h with h1
    exact h1.symm

/-- A failed validation reports exactly one message: the first violated
field (Joi `abortEarly`). -/
theorem validateCreateProduct_error_inv (r : RawInput) (msgs : List String)
    (h : validateCreateProduct r = .error msgs) :
    ∃ m, msgs = [m] ∧ firstValidationError r = some m := by
  unfold validateCreateProduct at h
  split at h
  case h_1 m heq =>
    injection h with h1
    exact ⟨m, h1.symm, heq⟩
  case h_2 => exact Except.noConfusion h

/-- The validated value's threshold is the request's threshold with Joi's
schema default `10` applied when absent. -/
theorem validateCreateProduct_ok_threshold (r : RawInput) (v : CreateInput)
    (h : validateCreateProduct r = .ok v) :
    v.lowStockThreshold = r.lowStockThreshold.getD 10 := by
  rw [validateCreateProduct_ok_inv r v h]
  rfl

theorem supplierField_none (db : DB) (p : Product)
    (hj : joinedSupplier db p = none) : supplierField db p = none := by
  unfold supplierField
  rw [hj]

theorem supplierField_some (db : DB) (p : Product) (s : Supplier)
    (hj : joinedSupplier db p = some s) :
    supplierField db p =
      if s.id = 0 then none
      else some
        { id := s.id, name := s.name, contactEmail := s.contactEmail
          leadTimeDays := s.leadTimeDays } := by
  unfold supplierField
  rw [hj]

theorem joinedSupplier_inv (db : DB) (p : Product) (s : Supplier)
    (hj : joinedSupplier db p = some s) :
    s ∈ db.suppliers ∧ p.supplierId = some s.id := by
  unfold joinedSupplier at hj
  cases hs : p.supplierId with
  | none => rw [hs] at hj; exact Option.noConfusion hj
  | some sid =>
    rw [hs] at hj
    have hf : db.suppliers.find? (fun x => x.id == sid) = some s := hj
    have hid : s.id = sid := by simpa using List.find?_some hf
    exact ⟨List.mem_of_find?_eq_some hf, by rw [hid]⟩

theorem joinedSupplier_of_mem (db : DB) (p : Product) (s : Supplier)
    (hsmem : s ∈ db.suppliers) (hsid : p.supplierId = some s.id) :
    ∃ s', joinedSupplier db p = some s' ∧ s'.id = s.id := by
  unfold joinedSupplier
  rw [hsid]
  have hsome : (db.suppliers.find? (fun x => x.id == s.id)).isSome :=
    List.find?_isSome.mpr ⟨s, hsmem, by simp⟩
  obtain ⟨s', hf⟩ := Option.isSome_iff_exists.mp hsome
  exact ⟨s', hf, by simpa using List.find?_some hf⟩

/-- Summing a pointwise bump at one key of a duplicate-free key list. -/
theorem sum_map_addIf {β : Type} [DecidableEq β] (ks : List β) (x : β) (m : Nat)
    (g : β → Nat) (hnd : ks.Nodup) (hx : x ∈ ks) :
    (ks.map (fun b => (if x = b then m else 0) + g b)).sum = m + (ks.map g).sum := by
  induction ks with
  | nil => cases hx
  | cons k ks ih =>
    rcases List.nodup_cons.mp hnd with ⟨hk, hnd'⟩
    rcases List.mem_cons.mp hx with h | h
    · subst h
      have hmap : ks.map (fun b => (if x = b then m else 0) + g b) = ks.map g := by
        apply List.map_congr_left
        intro b hb
        have hne : x ≠ b := fun e => hk (e ▸ hb)
        simp [hne]
      simp only [List.map_cons, List.sum_cons, if_true, eq_self_iff_true]
      rw [hmap]
      omega
    · have hxk : x ≠ k := fun e => hk (e ▸ h)
      simp only [List.map_cons, List.sum_cons, if_neg hxk]
      rw [ih hnd' h]
      omega

/-- Grouping a list by key and summing `f` over each group sums `f` over the
whole list, for any duplicate-free key list covering the list. -/
theorem sum_filter_over_keys {α β : Type} [BEq β] [LawfulBEq β] [DecidableEq β]
    (l : List α) (key : α → β)
    (f : α → Nat) (ks : List β) (hnd : ks.Nodup) (hcov : ∀ a ∈ l, key a ∈ ks) :
    (ks.map (fun b => ((l.filter (fun x => key x == b)).map f).sum)).sum
      = (l.map f).sum := by
  induction l with
  | nil =>
    simp only [List.filter_nil, List.map_nil, List.sum_nil]
    exact List.sum_eq_zero (by simp)
  | cons a l ih =>
    have hcov' : ∀ x ∈ l, key x ∈ ks := fun x hx => hcov x (List.mem_cons_of_mem _ hx)
    have hka : key a ∈ ks := hcov a (List.mem_cons_self _ _)
    have hstep : ∀ b ∈ ks, ((List.filter (fun x => key x == b) (a :: l)).map f).sum
        = (if key a = b then f a else 0)
          + ((l.filter (fun x => key x == b)).map f).sum := by
      intro b _
      by_cases h : key a = b
      · simp [List.filter_cons, beq_iff_eq, h]
      · simp [List.filter_cons, beq_iff_eq, h]
    calc (ks.map fun b => ((List.filter (fun x => key x == b) (a :: l)).map f).sum).sum
        = (ks.map fun b => (if key a = b then f a else 0)
            + ((l.filter (fun x => key x == b)).map f).sum).sum :=
          congrArg List.sum (List.map_congr_left hstep)
      _ = f a + (ks.map fun b => ((l.filter (fun x => key x == b)).map f).sum).sum :=
          sum_map_addIf ks (key a) (f a) _ hnd hka
      _ = f a + (l.map f).sum := by rw [ih hcov']
      _ = ((a :: l).map f).sum := by simp

/-- Specialisation: the distinct keys of the list itself. -/
theorem sum_over_dedup_groups {α β : Type} [BEq β] [LawfulBEq β] [DecidableEq β]
    (l : List α) (key : α → β) (f : α → Nat) :
    (((l.map key).dedup).map
        (fun b => ((l.filter (fun x => key x == b)).map f).sum)).sum
      = (l.map f).sum :=
  sum_filter_over_keys l key f _ (List.nodup_dedup _)
    (fun a ha => List.mem_dedup.mpr (List.mem_map_of_mem key ha))

theorem sum_map_one {α : Type} (l : List α) : (l.map fun _ => (1 : Nat)).sum = l.length := by
  induction l with
  | nil => rfl
  | cons a l ih =>
    simp only [List.map_cons, List.sum_cons, ih, List.length_cons]
    omega

/-- The group sizes of a grouping by key sum to the length of the list. -/
theorem length_filter_over_dedup {α β : Type} [BEq β] [LawfulBEq β] [DecidableEq β]
    (l : List α) (key : α → β) :
    (((l.map key).dedup).map (fun b => (l.filter (fun x => key x == b)).length)).sum
      = l.length := by
  calc (((l.map key).dedup).map fun b => (l.filter (fun x => key x == b)).length).sum
      = (((l.map key).dedup).map fun b =>
          ((l.filter (fun x => key x == b)).map (fun _ => (1 : Nat))).sum).sum :=
        congrArg List.sum (List.map_congr_left (fun b _ => (sum_map_one _).symm))
    _ = (l.map (fun _ => (1 : Nat))).sum := sum_over_dedup_groups l key (fun _ => 1)
    _ = l.length := sum_map_one l

/-- Exact-arithmetic positivity of the SQL average. -/
theorem natCast_div_pos_iff (t n : Nat) :
    0 < (t : ℚ) / (n : ℚ) ↔ 0 < t ∧ 0 < n := by
  constructor
  · intro h
    constructor
    · rcases Nat.eq_zero_or_pos t with rfl | ht
      · simp at h
      · exact ht
    · rcases Nat.eq_zero_or_pos n with rfl | hn
      · simp at h
      · exact hn
  · rintro ⟨ht, hn⟩
    exact div_pos (by exact_mod_cast ht) (by exact_mod_cast hn)

/-- `Math.floor(stock / (sumSold/nDays))` over exact arithmetic is the
floor integer division of `stock * nDays` by `sumSold`. -/
theorem fdiv_eq_floor_div_avg (s : Int) (t n : Nat) (ht : 0 < t) (hn : 0 < n) :
    Int.fdiv (s * (n : Int)) (t : Int) = ⌊(s : ℚ) / ((t : ℚ) / (n : ℚ))⌋ := by
  have h1 : (s : ℚ) / ((t : ℚ) / (n : ℚ)) = (((s * (n : Int)) : Int) : ℚ) / ((t : ℕ) : ℚ) := by
    rw [div_div_eq_mul_div]
    push_cast
    ring
  rw [h1, Rat.floor_intCast_div_natCast]
  exact Int.fdiv_eq_ediv _ (by positivity)

/-- `toFixed(2)` of the exact mean, as hundredths. -/
theorem toFixedHundredths_eq_floor (sum : Int) (len : Nat) (h : 0 < len) :
    toFixedHundredths sum len = ⌊(sum : ℚ) / (len : ℚ) * 100 + 1 / 2⌋ := by
  have hl : ((len : ℚ)) ≠ 0 := by exact_mod_cast h.ne'
  have h1 : (sum : ℚ) / (len : ℚ) * 100 + 1 / 2
      = (((200 * sum + (len : Int)) : Int) : ℚ) / (((2 * len) : ℕ) : ℚ) := by
    field_simp
    ring
  rw [h1, Rat.floor_intCast_div_natCast]
  unfold toFixedHundredths
  rw [Int.fdiv_eq_ediv _ (by positivity)]
  congr 1

/-! ## Example data for witnesses -/

def exUser : AuthUser := { id := 7, companyId := 1 }

def wh1 : Warehouse := { id := 1, companyId := 1, name := "Main", isActive := true }

def exDbCreate : DB :=
  { warehouses := [wh1], suppliers := [], categories := [], products := []
    inventories := [], movements := [], sales := [] }

def exBody : RawInput :=
  { name := some "Widget", sku := some "SKU1", description := none
    price := some 999, cost := none, weight := none, dimensions := none
    categoryId := none, supplierId := none, lowStockThreshold := none
    warehouseId := some 1, initialQuantity := some 5 }

/-- A request violating two independent field constraints: `name` and
`price` are both missing. -/
def c8Body : RawInput :=
  { name := none, sku := some "SKU3", description := none
    price := none, cost := none, weight := none, dimensions := none
    categoryId := none, supplierId := none, lowStockThreshold := none
    warehouseId := some 1, initialQuantity := some 5 }

/-- `c8Body` with only the `name` violation repaired, exposing that `price`
was also violated. -/
def c8BodyNameFixed : RawInput := { c8Body with name := some "Widget" }

/-! ## Claims about product provisioning -/

/-- C1: for every CreateProduct call that passes validation, whose
warehouse is an active warehouse of the caller's company, whose SKU is
fresh and whose writes succeed, the handler persists exactly one Product
row scoped to the caller's company, exactly one InventoryRecord for that
product and warehouse with `quantity = initialQuantity` and
`reservedQuantity = 0`, and exactly one InventoryMovement of kind `in`
with `previousQuantity = 0`, `newQuantity = initialQuantity`,
`referenceType = initial_stock` and the caller's user id, alongside a 201
echo of the created product. -/
theorem createProduct_persists_exactly_one_each (db : DB) (user : AuthUser)
    (body : RawInput) (v : CreateInput)
    (hval : validateCreateProduct body = .ok v)
    (hwh : ∃ w ∈ db.warehouses,
      w.id = v.warehouseId ∧ w.companyId = user.companyId ∧ w.isActive = true)
    (hsku : ∀ p ∈ db.products, p.sku ≠ v.sku)
    (hfk : ∀ i ∈ db.inventories, ∃ p ∈ db.products, i.productId = p.id) :
    createProduct db user body none =
      (.ok
        { productId := freshProductId db
          name := v.name
          sku := v.sku
          price := v.price
          warehouseId := v.warehouseId
          initialQuantity := v.initialQuantity },
       { db with
          products := db.products ++ [createdProduct db user v]
          inventories := db.inventories ++ [createdInventory db v]
          movements := db.movements ++ [createdMovement db user v] })
    ∧ (createdProduct db user v).companyId = user.companyId
    ∧ (createdInventory db v).productId = (createdProduct db user v).id
    ∧ (createdInventory db v).warehouseId = v.warehouseId
    ∧ (createdInventory db v).quantity = (v.initialQuantity : Int)
    ∧ (createdInventory db v).reservedQuantity = 0
    ∧ (createdMovement db user v).movementType = "in"
    ∧ (createdMovement db user v).previousQuantity = 0
    ∧ (createdMovement db user v).newQuantity = (v.initialQuantity : Int)
    ∧ (createdMovement db user v).referenceType = some "initial_stock"
    ∧ (createdMovement db user v).userId = some user.id := by
  refine ⟨?_, rfl, rfl, rfl, rfl, rfl, rfl, rfl, rfl, rfl, rfl⟩
  exact createProduct_success_eq db user body v hval
    (warehouse_found_isSome db user v hwh) (sku_fresh_none db v hsku)
    (inventory_fresh_none db v hfk)

theorem createProduct_persists_exactly_one_each_witness :
    createProduct exDbCreate exUser exBody none =
      (.ok
        { productId := freshProductId exDbCreate
          name := (buildCreateInput exBody).name
          sku := (buildCreateInput exBody).sku
          price := (buildCreateInput exBody).price
          warehouseId := (buildCreateInput exBody).warehouseId
          initialQuantity := (buildCreateInput exBody).initialQuantity },
       { exDbCreate with
          products := exDbCreate.products
            ++ [createdProduct exDbCreate exUser (buildCreateInput exBody)]
          inventories := exDbCreate.inventories
            ++ [createdInventory exDbCreate (buildCreateInput exBody)]
          movements := exDbCreate.movements
            ++ [createdMovement exDbCreate exUser (buildCreateInput exBody)] }) :=
  (createProduct_persists_exactly_one_each exDbCreate exUser exBody
    (buildCreateInput exBody) rfl
    ⟨wh1, by decide, by decide, by decide, by decide⟩
    (by decide) (by decide)).1

/-- C2: every failing CreateProduct call — validation, warehouse check,
SKU check, duplicate-inventory check, or a storage error thrown by a
write — leaves the store exactly as it was (full transactional
rollback). -/
theorem createProduct_failure_rollback (db : DB) (user : AuthUser) (body : RawInput)
    (sf : Option StorageErr) (r : Except ApiError CreatedData) (db2 : DB) (e : ApiError)
    (h : createProduct db user body sf = (r, db2)) (herr : r = .error e) :
    db2 = db := by
  unfold createProduct at h
  repeat' split at h
  all_goals injection h with h1 h2
  all_goals try exact h2.symm
  rw [herr] at h1
  exact Except.noConfusion h1

theorem createProduct_failure_rollback_witness :
    (createProduct exDbCreate exUser c8Body none).2 = exDbCreate :=
  createProduct_failure_rollback exDbCreate exUser c8Body none
    (createProduct exDbCreate exUser c8Body none).1
    (createProduct exDbCreate exUser c8Body none).2
    (ApiError.validationFailed ["name is required"]) rfl rfl

/-- C5: a CreateProduct call that passes every explicit check but whose
write trips the storage layer's uniqueness constraint (a concurrent
race loser) is answered with the distinguishable 409 conflict outcome,
never the 500 internal error, and persists nothing. -/
theorem createProduct_race_loser_conflict (db : DB) (user : AuthUser)
    (body : RawInput) (v : CreateInput)
    (hval : validateCreateProduct body = .ok v)
    (hwh : ∃ w ∈ db.warehouses,
      w.id = v.warehouseId ∧ w.companyId = user.companyId ∧ w.isActive = true)
    (hsku : ∀ p ∈ db.products, p.sku ≠ v.sku) :
    createProduct db user body (some .uniqueConstraint) = (.error .duplicateEntry, db)
    ∧ statusOf .duplicateEntry = 409
    ∧ ApiError.duplicateEntry ≠ ApiError.internalError
    ∧ statusOf .internalError = 500 := by
  refine ⟨?_, rfl, by decide, rfl⟩
  exact createProduct_storageFailure_eq db user body v .uniqueConstraint hval
    (warehouse_found_isSome db user v hwh) (sku_fresh_none db v hsku)

theorem createProduct_race_loser_conflict_witness :
    createProduct exDbCreate exUser exBody (some .uniqueConstraint)
      = (.error .duplicateEntry, exDbCreate)
    ∧ statusOf .duplicateEntry = 409 :=
  ⟨(createProduct_race_loser_conflict exDbCreate exUser exBody
      (buildCreateInput exBody) rfl
      ⟨wh1, by decide, by decide, by decide, by decide⟩ (by decide)).1,
   (createProduct_race_loser_conflict exDbCreate exUser exBody
      (buildCreateInput exBody) rfl
      ⟨wh1, by decide, by decide, by decide, by decide⟩ (by decide)).2.1⟩

/-- C8 counterexample: `c8Body` violates both the `name` and the `price`
constraints (repairing `name` alone still fails on `price`), yet the
ValidationError response carries a single message — Joi's default
`abortEarly: true` stops at the first violated field, so the response is
not one message per violated field. -/
theorem validation_two_violations_one_message :
    c8Body.name = none ∧ c8Body.price = none
    ∧ validateCreateProduct c8Body = .error ["name is required"]
    ∧ validateCreateProduct c8BodyNameFixed = .error ["price is required"]
    ∧ (["name is required"] : List String).length = 1 :=
  ⟨rfl, rfl, rfl, rfl, rfl⟩

/-- C8 (amended): a CreateProduct call whose input violates the schema is
answered with a ValidationError carrying exactly one message — the first
violated field in schema order — rather than one message per violated
field. -/
theorem validation_reports_first_violation_only (r : RawInput) (msgs : List String)
    (h : validateCreateProduct r = .error msgs) :
    msgs.length = 1 ∧ ∃ m, msgs = [m] ∧ firstValidationError r = some m := by
  obtain ⟨m, h1, h2⟩ := validateCreateProduct_error_inv r msgs h
  exact ⟨by rw [h1]; rfl, m, h1, h2⟩

theorem validation_reports_first_violation_only_witness :
    (["name is required"] : List String).length = 1
    ∧ ∃ m, (["name is required"] : List String) = [m]
        ∧ firstValidationError c8Body = some m :=
  validation_reports_first_violation_only c8Body ["name is required"] rfl

/-- C10: every product persisted by a successful CreateProduct call stores
a non-null low-stock threshold (the Joi default 10 is applied when the
caller omits the field), so the COALESCE threshold resolution always
resolves to the product's own stored threshold — the category-default and
hard-coded-10 branches are not reachable for such products. -/
theorem createProduct_threshold_always_own (db : DB) (user : AuthUser)
    (body : RawInput) (v : CreateInput)
    (hval : validateCreateProduct body = .ok v)
    (hwh : ∃ w ∈ db.warehouses,
      w.id = v.warehouseId ∧ w.companyId = user.companyId ∧ w.isActive = true)
    (hsku : ∀ p ∈ db.products, p.sku ≠ v.sku)
    (hfk : ∀ i ∈ db.inventories, ∃ p ∈ db.products, i.productId = p.id) :
    ((createProduct db user body none).2).products
      = db.products ++ [createdProduct db user v]
    ∧ (createdProduct db user v).lowStockThreshold = some v.lowStockThreshold
    ∧ (∀ db2 : DB, effectiveThreshold db2 (createdProduct db user v) = v.lowStockThreshold)
    ∧ v.lowStockThreshold = body.lowStockThreshold.getD 10 := by
  have h := createProduct_success_eq db user body v hval
    (warehouse_found_isSome db user v hwh) (sku_fresh_none db v hsku)
    (inventory_fresh_none db v hfk)
  refine ⟨?_, rfl, fun db2 => rfl, validateCreateProduct_ok_threshold body v hval⟩
  rw [h]

theorem createProduct_threshold_always_own_witness :
    (createdProduct exDbCreate exUser (buildCreateInput exBody)).lowStockThreshold
      = some 10
    ∧ effectiveThreshold exDbCreate
        (createdProduct exDbCreate exUser (buildCreateInput exBody)) = 10 :=
  ⟨(createProduct_threshold_always_own exDbCreate exUser exBody
      (buildCreateInput exBody) rfl
      ⟨wh1, by decide, by decide, by decide, by decide⟩
      (by decide) (by decide)).2.1,
   (createProduct_threshold_always_own exDbCreate exUser exBody
      (buildCreateInput exBody) rfl
      ⟨wh1, by decide, by decide, by decide, by decide⟩
      (by decide) (by decide)).2.2.1 exDbCreate⟩

/-! ## Claims about the Stock Alert Engine -/

/-- Spec-side formulation of the window total: the sum of `quantity_sold`
across all SalesFact rows of the pair inside the trailing window. -/
def specWindowTotal (db : DB) (cutoff pid wid : Nat) : Nat :=
  ((salesInWindow db cutoff pid wid).map SalesData.quantitySold).sum

/-- Spec-side formulation: the number of distinct sale dates having at
least one row in the window. -/
def specSaleDaysCount (db : DB) (cutoff pid wid : Nat) : Nat :=
  (saleDatesInWindow db cutoff pid wid).length

/-- Spec-side average daily sales: window total divided by the distinct
sale-date count, as an exact rational (0 when there are no rows). -/
def specAvgDailySales (db : DB) (cutoff pid wid : Nat) : ℚ :=
  (specWindowTotal db cutoff pid wid : ℚ) / (specSaleDaysCount db cutoff pid wid : ℚ)

/-! Example data for the alert-engine witnesses (evaluation date 60,
cutoff 30, so sale dates 40 and 50 are inside the trailing window). -/

def exSupplier : Supplier :=
  { id := 1, name := "ACME", contactEmail := some "acme@parts.example"
    leadTimeDays := 7, isActive := true }

def exCat : ProductCategory :=
  { id := 1, name := "Electronics", lowStockThreshold := some 15 }

def alertProduct : Product :=
  { id := 1, companyId := 1, categoryId := some 1, supplierId := some 1
    name := "Widget", sku := "W1", description := none, price := 100
    cost := none, weight := none, dimensions := none
    lowStockThreshold := none, isActive := true }

def exInv : Inventory :=
  { id := 1, productId := 1, warehouseId := 1, quantity := 12, reservedQuantity := 2 }

def exAlertDb : DB :=
  { warehouses := [wh1], suppliers := [exSupplier], categories := [exCat]
    products := [alertProduct], inventories := [exInv], movements := []
    sales :=
      [ { id := 1, productId := 1, warehouseId := 1, quantitySold := 4, saleDate := 40 }
      , { id := 2, productId := 1, warehouseId := 1, quantitySold := 2, saleDate := 40 }
      , { id := 3, productId := 1, warehouseId := 1, quantitySold := 3, saleDate := 50 } ] }

def exCand : Candidate := { p := alertProduct, w := wh1, i := exInv }

def mkPlainProduct (pid : Nat) (psku : String) : Product :=
  { id := pid, companyId := 1, categoryId := none, supplierId := none
    name := psku, sku := psku, description := none, price := 10
    cost := none, weight := none, dimensions := none
    lowStockThreshold := some 10, isActive := true }

/-- Three qualifying candidates with available stocks 5, 2 and 8, for the
pagination witness. -/
def db6 : DB :=
  { warehouses := [wh1], suppliers := [], categories := []
    products := [mkPlainProduct 1 "A1", mkPlainProduct 2 "A2", mkPlainProduct 3 "A3"]
    inventories :=
      [ { id := 1, productId := 1, warehouseId := 1, quantity := 5, reservedQuantity := 0 }
      , { id := 2, productId := 2, warehouseId := 1, quantity := 2, reservedQuantity := 0 }
      , { id := 3, productId := 3, warehouseId := 1, quantity := 8, reservedQuantity := 0 } ]
    movements := []
    sales :=
      [ { id := 1, productId := 1, warehouseId := 1, quantitySold := 1, saleDate := 40 }
      , { id := 2, productId := 2, warehouseId := 1, quantitySold := 1, saleDate := 40 }
      , { id := 3, productId := 3, warehouseId := 1, quantitySold := 1, saleDate := 40 } ] }

def mkElectronicsProduct (pid : Nat) (psku : String) : Product :=
  { id := pid, companyId := 1, categoryId := some 1, supplierId := none
    name := psku, sku := psku, description := none, price := 10
    cost := none, weight := none, dimensions := none
    lowStockThreshold := some 10, isActive := true }

/-- The spec's summary example: three Electronics alerts with available
stocks 0, 3 and 8. -/
def db7 : DB :=
  { warehouses := [wh1], suppliers := []
    categories := [{ id := 1, name := "Electronics", lowStockThreshold := some 15 }]
    products :=
      [mkElectronicsProduct 1 "E1", mkElectronicsProduct 2 "E2", mkElectronicsProduct 3 "E3"]
    inventories :=
      [ { id := 1, productId := 1, warehouseId := 1, quantity := 0, reservedQuantity := 0 }
      , { id := 2, productId := 2, warehouseId := 1, quantity := 3, reservedQuantity := 0 }
      , { id := 3, productId := 3, warehouseId := 1, quantity := 8, reservedQuantity := 0 } ]
    movements := []
    sales :=
      [ { id := 1, productId := 1, warehouseId := 1, quantitySold := 1, saleDate := 40 }
      , { id := 2, productId := 2, warehouseId := 1, quantitySold := 1, saleDate := 40 }
      , { id := 3, productId := 3, warehouseId := 1, quantitySold := 1, saleDate := 40 } ] }

def inactiveSupplier : Supplier :=
  { id := 1, name := "Sleepy", contactEmail := some "sleepy@supplier.example"
    leadTimeDays := 7, isActive := false }

/-- A qualifying product linked to an inactive supplier. -/
def db9 : DB :=
  { warehouses := [wh1], suppliers := [inactiveSupplier], categories := []
    products :=
      [ { id := 1, companyId := 1, categoryId := none, supplierId := some 1
          name := "Gadget", sku := "G9", description := none, price := 50
          cost := none, weight := none, dimensions := none
          lowStockThreshold := some 10, isActive := true } ]
    inventories :=
      [ { id := 1, productId := 1, warehouseId := 1, quantity := 5, reservedQuantity := 0 } ]
    movements := []
    sales :=
      [ { id := 1, productId := 1, warehouseId := 1, quantitySold := 2, saleDate := 40 } ] }

/-- C3: a joined (product, warehouse, inventory) triple is a qualifying
low-stock candidate iff the product and the warehouse both belong to the
requested company and are both active, the available stock is at most the
effective threshold (the product's own threshold when set, else the linked
category's default when set, else 10), and at least one sales row exists
for that exact pair with sale date on or after the 30-day cutoff. -/
theorem lowStock_inclusion_iff (db : DB) (cid cutoff : Nat) (c : Candidate)
    (hjoin : c ∈ joinRows db) :
    c ∈ qualifyingCandidates db cid cutoff ↔
      (c.p.companyId = cid ∧ c.w.companyId = cid
        ∧ c.p.isActive = true ∧ c.w.isActive = true
        ∧ availableStock c.i ≤
            (match c.p.lowStockThreshold with
             | some t => t
             | none =>
               match categoryThreshold db c.p with
               | some t => t
               | none => 10)
        ∧ ∃ sd ∈ db.sales,
            sd.productId = c.p.id ∧ sd.warehouseId = c.w.id ∧ cutoff ≤ sd.saleDate) := by
  unfold qualifyingCandidates
  rw [List.mem_filter]
  simp only [hjoin, true_and]
  unfold qualifies hasRecentSales effectiveThreshold
  simp only [Bool.and_eq_true, beq_iff_eq, decide_eq_true_eq, List.any_eq_true]
  tauto

/-- C4: for a candidate in the alert list, the reported days-until-stockout
is `floor(currentStock / avgDailySales)` when the average is positive,
90 when the average is zero or undefined with positive stock, 0 when the
stock is not positive, all clamped below at 0, where `avgDailySales` is the
window's total units sold divided by its distinct sale-date count. -/
theorem stockout_projection_formula (db : DB) (cid cutoff : Nat) (c : Candidate)
    (hmem : c ∈ qualifyingCandidates db cid cutoff) :
    (mkAlert db cutoff c).daysUntilStockout =
      max 0
        (if 0 < specAvgDailySales db cutoff c.p.id c.w.id
         then ⌊(availableStock c.i : ℚ) / specAvgDailySales db cutoff c.p.id c.w.id⌋
         else if 0 < availableStock c.i then 90 else 0) := by
  have key1 : (perDateSums db cutoff c.p.id c.w.id).sum
      = specWindowTotal db cutoff c.p.id c.w.id := by
    unfold perDateSums saleDatesInWindow specWindowTotal
    exact sum_over_dedup_groups _ _ _
  have key2 : (perDateSums db cutoff c.p.id c.w.id).length
      = specSaleDaysCount db cutoff c.p.id c.w.id := by
    unfold perDateSums specSaleDaysCount
    exact List.length_map _ _
  show daysUntilStockoutOf (availableStock c.i)
      (perDateSums db cutoff c.p.id c.w.id).sum
      (perDateSums db cutoff c.p.id c.w.id).length = _
  rw [key1, key2]
  unfold daysUntilStockoutOf specAvgDailySales
  by_cases h : 0 < specWindowTotal db cutoff c.p.id c.w.id
      ∧ 0 < specSaleDaysCount db cutoff c.p.id c.w.id
  · rw [if_pos h, if_pos ((natCast_div_pos_iff _ _).mpr h)]
    congr 1
    exact fdiv_eq_floor_div_avg _ _ _ h.1 h.2
  · rw [if_neg h, if_neg (fun hp => h ((natCast_div_pos_iff _ _).mp hp))]

instance : IsTotal Candidate availLe := ⟨fun _ _ => Int.le_total _ _⟩

instance : IsTrans Candidate availLe := ⟨fun _ _ _ h1 h2 => le_trans h1 h2⟩

instance : IsTotal SummaryRow countGe := ⟨fun a b => Nat.le_total b.alertCount a.alertCount⟩

instance : IsTrans SummaryRow countGe := ⟨fun _ _ _ h1 h2 => le_trans h2 h1⟩

/-- C6: the alert list is the contiguous page slice of the candidates
sorted ascending by available stock, and the reported total is the number
of all qualifying candidates independent of the requested page, under the
store's uniqueness guarantee that distinct qualifying rows have distinct
(product id, warehouse id) keys. -/
theorem alerts_pagination_slice (db : DB) (cid cutoff : Nat)
    (hkeys : ((qualifyingCandidates db cid cutoff).map
      (fun c => (c.p.id, c.w.id))).Nodup) :
    (∀ page size, lowStockAlerts db cid cutoff page size =
      (((List.insertionSort availLe (qualifyingCandidates db cid cutoff)).map
        (mkAlert db cutoff)).drop ((page - 1) * size)).take size)
    ∧ totalAlertCount db cid cutoff = (qualifyingCandidates db cid cutoff).length
    ∧ List.Sorted (fun a b : Alert => a.currentStock ≤ b.currentStock)
        ((List.insertionSort availLe (qualifyingCandidates db cid cutoff)).map
          (mkAlert db cutoff))
    ∧ totalPagesOf 25 10 = 3 := by
  have hq : (qualifyingCandidates db cid cutoff).Nodup := List.Nodup.of_map _ hkeys
  refine ⟨?_, ?_, ?_, rfl⟩
  · intro page size
    unfold lowStockAlerts sortedQualifying
    rw [List.dedup_eq_self.mpr hq, List.map_take, List.map_drop]
  · unfold totalAlertCount
    rw [List.dedup_eq_self.mpr hkeys, List.length_map]
  · exact List.Pairwise.map (mkAlert db cutoff) (fun a b h => h)
      (List.sorted_insertionSort availLe (qualifyingCandidates db cid cutoff))

/-- C9 (amended): an alert's supplier field is populated iff the product is
linked by id to an existing supplier row (with a truthy id), regardless of
the supplier's active flag, and when populated it carries that supplier's
identity, name, contact email and lead time; products with no linked
supplier row get a null field. -/
theorem alert_supplier_populated_iff (db : DB) (cid cutoff : Nat) (c : Candidate)
    (hmem : c ∈ qualifyingCandidates db cid cutoff) :
    ((mkAlert db cutoff c).supplier ≠ none ↔
      ∃ s ∈ db.suppliers, c.p.supplierId = some s.id ∧ s.id ≠ 0)
    ∧ ∀ info, (mkAlert db cutoff c).supplier = some info →
        ∃ s ∈ db.suppliers, c.p.supplierId = some s.id ∧
          info = { id := s.id, name := s.name, contactEmail := s.contactEmail
                   leadTimeDays := s.leadTimeDays } := by
  have hshow : (mkAlert db cutoff c).supplier = supplierField db c.p := rfl
  constructor
  · rw [hshow]
    constructor
    · intro h
      cases hj : joinedSupplier db c.p with
      | none => rw [supplierField_none db c.p hj] at h; exact absurd rfl h
      | some s =>
        obtain ⟨hmemS, hsid⟩ := joinedSupplier_inv db c.p s hj
        by_cases h0 : s.id = 0
        · rw [supplierField_some db c.p s hj, if_pos h0] at h
          exact absurd rfl h
        · exact ⟨s, hmemS, hsid, h0⟩
    · rintro ⟨s, hsmem, hsid, h0⟩
      obtain ⟨s', hj, hid⟩ := joinedSupplier_of_mem db c.p s hsmem hsid
      rw [supplierField_some db c.p s' hj, if_neg (by rw [hid]; exact h0)]
      exact Option.some_ne_none _
  · intro info hinfo
    rw [hshow] at hinfo
    cases hj : joinedSupplier db c.p with
    | none =>
      rw [supplierField_none db c.p hj] at hinfo
      exact Option.noConfusion hinfo
    | some s =>
      obtain ⟨hmemS, hsid⟩ := joinedSupplier_inv db c.p s hj
      rw [supplierField_some db c.p s hj] at hinfo
      by_cases h0 : s.id = 0
      · rw [if_pos h0] at hinfo
        exact Option.noConfusion hinfo
      · rw [if_neg h0] at hinfo
        exact ⟨s, hmemS, hsid, (Option.some.inj hinfo).symm⟩

/-- C7: the summary rows partition the qualifying candidates by category
name (null categories labelled Uncategorized): each row reports the group's
candidate count, its exact-zero available-stock count, its at-most-5
available-stock count (which therefore includes the zero-stock ones), and
the arithmetic mean of available stock rounded to two decimals; rows are
ordered by candidate count descending; group sizes sum to the qualifying
total; and the spec's worked example (stocks 0, 3, 8 in Electronics) yields
out-of-stock 1, critical 2, average 3.67. -/
theorem lowStockSummary_spec (db : DB) (cid cutoff : Nat) :
    (∀ g ∈ lowStockSummary db cid cutoff,
      ∃ k, k ∈ (qualifyingCandidates db cid cutoff).map (categoryKey db)
        ∧ g.categoryName = k.getD "Uncategorized"
        ∧ g.alertCount = ((qualifyingCandidates db cid cutoff).filter
            (fun c => categoryKey db c == k)).length
        ∧ g.outOfStockCount = (((qualifyingCandidates db cid cutoff).filter
            (fun c => categoryKey db c == k)).filter
              (fun c => availableStock c.i == 0)).length
        ∧ g.criticalCount = (((qualifyingCandidates db cid cutoff).filter
            (fun c => categoryKey db c == k)).filter
              (fun c => decide (availableStock c.i ≤ 5))).length
        ∧ g.outOfStockCount ≤ g.criticalCount
        ∧ 0 < ((qualifyingCandidates db cid cutoff).filter
            (fun c => categoryKey db c == k)).length
        ∧ g.avgStockHundredths =
            ⌊((((qualifyingCandidates db cid cutoff).filter
                (fun c => categoryKey db c == k)).map
                  (fun c => availableStock c.i)).sum : ℚ)
              / (((qualifyingCandidates db cid cutoff).filter
                  (fun c => categoryKey db c == k)).length : ℚ) * 100 + 1 / 2⌋)
    ∧ List.Sorted countGe (lowStockSummary db cid cutoff)
    ∧ ((lowStockSummary db cid cutoff).map SummaryRow.alertCount).sum
        = (qualifyingCandidates db cid cutoff).length
    ∧ lowStockSummary db7 1 30 =
        [{ categoryName := "Electronics", alertCount := 3, outOfStockCount := 1
           criticalCount := 2, avgStockHundredths := 367 }] := by
  refine ⟨?_, List.sorted_insertionSort countGe _, ?_, by decide⟩
  · intro g hg
    have hg' : g ∈ (((qualifyingCandidates db cid cutoff).map
        (categoryKey db)).dedup).map (summaryGroup db cid cutoff) :=
      (List.perm_insertionSort countGe _).mem_iff.mp hg
    obtain ⟨k, hk, rfl⟩ := List.mem_map.mp hg'
    have hkmem : k ∈ (qualifyingCandidates db cid cutoff).map (categoryKey db) :=
      List.mem_dedup.mp hk
    obtain ⟨c0, hc0, hkey⟩ := List.mem_map.mp hkmem
    have hc0f : c0 ∈ (qualifyingCandidates db cid cutoff).filter
        (fun c => categoryKey db c == k) :=
      List.mem_filter.mpr ⟨hc0, by simp [hkey]⟩
    have hlen : 0 < ((qualifyingCandidates db cid cutoff).filter
        (fun c => categoryKey db c == k)).length :=
      List.length_pos_of_mem hc0f
    refine ⟨k, hkmem, rfl, rfl, rfl, rfl, ?_, hlen, ?_⟩
    · show (((qualifyingCandidates db cid cutoff).filter
          (fun c => categoryKey db c == k)).filter
            (fun c => availableStock c.i == 0)).length
        ≤ (((qualifyingCandidates db cid cutoff).filter
            (fun c => categoryKey db c == k)).filter
              (fun c => decide (availableStock c.i ≤ 5))).length
      rw [← List.countP_eq_length_filter, ← List.countP_eq_length_filter]
      apply List.countP_mono_left
      intro x _ hx0
      have hz : availableStock x.i = 0 := by simpa using hx0
      simp [hz]
    · exact toFixedHundredths_eq_floor _ _ hlen
  · have hperm : (lowStockSummary db cid cutoff).Perm
        ((((qualifyingCandidates db cid cutoff).map
          (categoryKey db)).dedup).map (summaryGroup db cid cutoff)) :=
      List.perm_insertionSort countGe _
    calc ((lowStockSummary db cid cutoff).map SummaryRow.alertCount).sum
        = (((((qualifyingCandidates db cid cutoff).map
            (categoryKey db)).dedup).map (summaryGroup db cid cutoff)).map
              SummaryRow.alertCount).sum :=
          (hperm.map SummaryRow.alertCount).sum_eq
      _ = ((((qualifyingCandidates db cid cutoff).map (categoryKey db)).dedup).map
            (fun k => ((qualifyingCandidates db cid cutoff).filter
              (fun c => categoryKey db c == k)).length)).sum := by
          rw [List.map_map]
          rfl
      _ = (qualifyingCandidates db cid cutoff).length :=
          length_filter_over_dedup (qualifyingCandidates db cid cutoff) (categoryKey db)

theorem lowStock_inclusion_iff_witness :
    exCand ∈ qualifyingCandidates exAlertDb 1 30 :=
  (lowStock_inclusion_iff exAlertDb 1 30 exCand (by decide)).mpr (by decide)

theorem stockout_projection_formula_witness :
    (mkAlert exAlertDb 30 exCand).daysUntilStockout =
      max 0
        (if 0 < specAvgDailySales exAlertDb 30 exCand.p.id exCand.w.id
         then ⌊(availableStock exCand.i : ℚ)
            / specAvgDailySales exAlertDb 30 exCand.p.id exCand.w.id⌋
         else if 0 < availableStock exCand.i then 90 else 0) :=
  stockout_projection_formula exAlertDb 1 30 exCand (by decide)

theorem alerts_pagination_slice_witness :
    lowStockAlerts db6 1 30 2 1 =
      (((List.insertionSort availLe (qualifyingCandidates db6 1 30)).map
        (mkAlert db6 30)).drop ((2 - 1) * 1)).take 1
    ∧ totalAlertCount db6 1 30 = (qualifyingCandidates db6 1 30).length :=
  ⟨(alerts_pagination_slice db6 1 30 (by decide)).1 2 1,
   (alerts_pagination_slice db6 1 30 (by decide)).2.1⟩

theorem alert_supplier_populated_iff_witness :
    (mkAlert exAlertDb 30 exCand).supplier ≠ none :=
  (alert_supplier_populated_iff exAlertDb 1 30 exCand (by decide)).1.mpr
    ⟨exSupplier, by decide, by decide, by decide⟩

/-- C9 counterexample: in `db9` the only supplier is inactive, yet the
alert for the product linked to it carries a populated supplier field with
that supplier's data — not the null field the claim requires for products
without a linked active supplier. -/
theorem alert_inactive_supplier_still_populated :
    (∀ s ∈ db9.suppliers, s.isActive = false)
    ∧ (lowStockAlerts db9 1 30 1 100).map Alert.supplier =
        [some { id := 1, name := "Sleepy"
                contactEmail := some "sleepy@supplier.example", leadTimeDays := 7 }] :=
  ⟨by decide, by decide⟩

end StockFlow
